import Mathlib

/-!
Verification development for the infinite-snake TCP server.

The repository holds two variants of the same server:
  * `src/snakesrv.c`    — the C variant (namespace `Csrc` below),
  * `src/snake++srv.cpp` — the C++ variant (namespace `Cpp` below).

The `session()` and `clients()` functions have identical control flow in the
two variants (only diagnostic strings and the fixed payload text differ), so
they are embedded once and shared; the listener setup (`socker` / class
`Socker`) and `main` differ and are embedded per variant.

System calls are modelled by oracles: a `Cycle` gives the results the OS
returns for one iteration of the session loop (`select`, then `read`), a
`SysCalls` record gives the results of `socket`/`bind`/`listen`, and an
`AcceptEv` gives the results of one iteration of the accept loop.  Each
embedded function also emits a trace of the externally visible actions it
performs, so that ordering and resource-usage properties can be stated.
A result of `none` models a function that blocks forever (the real call
would sit in `select`/`accept` with no timeout) and hence never returns.
-/

namespace SnakeSrv

/- Exit and return codes, from class `Exit` in snake++srv.cpp (lines 36-43)
and the `EXIT_` defines in snakesrv.c (lines 23-27); the two variants use the
same numeric values. -/
namespace Exit

def OK : Int := 0

def USER : Int := 1

def ERR : Int := 2

def SIG : Int := 3

def PROG : Int := 4

end Exit

/-- Size of the `message` buffer in `session()`:
`char message[1024]` (snakesrv.c line 106, snake++srv.cpp line 154); the
read call is `read(clisock, message, 1024)` so a single read returns at most
1024 bytes. -/
def msgBufSize : Int := 1024

/-- Valid indices of the `message` buffer: `message[i]` is in bounds iff
`0 ≤ i < 1024`. -/
def termIndexInBounds (i : Int) : Prop := 0 ≤ i ∧ i < msgBufSize

instance (i : Int) : Decidable (termIndexInBounds i) :=
  inferInstanceAs (Decidable (0 ≤ i ∧ i < msgBufSize))

/-- OS results for one iteration of the `session()` loop: the value returned
by `select()` (positive = ready, 0 = timeout, -1 = error) and the value
returned by `read()` in the same iteration (consumed only when control
reaches the read). -/
structure Cycle where
  selret : Int
  readret : Int
deriving DecidableEq, Repr

/-- Externally visible events of one `session()` run. -/
inductive Ev
  | selectCall
  | writePayload
  | readCall (n : Int)
  | termStore (i : Int)
  | closeFd
deriving DecidableEq, Repr

/-- Number of `close(clisock)` events in a session trace. -/
def countClose : List Ev → Nat
  | [] => 0
  | Ev.closeFd :: t => countClose t + 1
  | _ :: t => countClose t

/-- The `while (!done)` loop of `session()` (snakesrv.c lines 122-157,
snake++srv.cpp lines 169-206), one `Cycle` per iteration.  Faithful points:
`if (retval)` takes the write branch for every nonzero `retval` (so the
`else if (-1 == retval)` arm is unreachable but is kept); after the write the
read is attempted in the same iteration; `reads > 0` stores a terminator at
index `reads` and loops; `reads < 0` closes and returns `EXIT_ERR`;
`reads == 0` just loops; `retval == 0` sets `done`, leaves the loop, closes
and returns `EXIT_OK`.  An exhausted cycle list models blocking forever in
`select()` (result `none`). -/
def sessionLoop : List Cycle → Option Int × List Ev
  | [] => (none, [])
  | c :: rest =>
    if c.selret ≠ 0 then
      if c.readret > 0 then
        ((sessionLoop rest).fst,
          Ev.selectCall :: Ev.writePayload :: Ev.readCall c.readret ::
            Ev.termStore c.readret :: (sessionLoop rest).snd)
      else if c.readret < 0 then
        (some Exit.ERR,
          [Ev.selectCall, Ev.writePayload, Ev.readCall c.readret, Ev.closeFd])
      else
        ((sessionLoop rest).fst,
          Ev.selectCall :: Ev.writePayload :: Ev.readCall c.readret ::
            (sessionLoop rest).snd)
    else if c.selret = -1 then
      (some Exit.ERR, [Ev.selectCall, Ev.closeFd])
    else
      (some Exit.OK, [Ev.selectCall, Ev.closeFd])

/-- `session(clisock, client, addrlen)` (snakesrv.c lines 102-158,
snake++srv.cpp lines 150-207).  The `client` and `addrlen` parameters are
unused by the body and omitted.  `fcntlOk` is the oracle for the
`fcntl(clisock, F_SETFL, O_NONBLOCK)` call: on `clisock < 0` the function
returns `EXIT_ERR` touching nothing; on `fcntl` failure it closes and
returns `EXIT_ERR`; otherwise it runs the loop. -/
def session (clisock : Int) (fcntlOk : Bool) (cycles : List Cycle) :
    Option Int × List Ev :=
  if clisock < 0 then (some Exit.ERR, [])
  else if ¬ fcntlOk then (some Exit.ERR, [Ev.closeFd])
  else sessionLoop cycles

/-- Scan of a session trace checking that every `read()` attempt is
immediately preceded by the payload write of the same iteration. -/
def writePrecedesRead : List Ev → Bool
  | [] => true
  | Ev.writePayload :: Ev.readCall _ :: t => writePrecedesRead t
  | Ev.readCall _ :: _ => false
  | Ev.selectCall :: t => writePrecedesRead t
  | Ev.writePayload :: t => writePrecedesRead t
  | Ev.termStore _ :: t => writePrecedesRead t
  | Ev.closeFd :: t => writePrecedesRead t

/-- Oracle for the three listener-setup system calls: the value `socket()`
returns (a descriptor, or negative on failure), the value `bind()` returns
(negative on failure) and the value `listen()` returns (nonzero on
failure). -/
structure SysCalls where
  socketRes : Int
  bindRes : Int
  listenRes : Int
deriving DecidableEq, Repr

/-- Externally visible events of listener setup/teardown. -/
inductive SEv
  | socketCall
  | bindCall
  | listenCall
  | closeCall
deriving DecidableEq, Repr

namespace Cpp

/-- The private state of class `Socker` (snake++srv.cpp lines 59-64):
the socket descriptor (`-1` when closed) and the port. -/
structure Socker where
  sock : Int := -1
  port : Int := -1
deriving DecidableEq, Repr

/-- `Socker::active()` (line 90): the socket is open iff `sock >= 0`. -/
def Socker.active (s : Socker) : Bool := s.sock ≥ 0

/-- `Socker::validport()` (line 95): the port is valid iff `port > 0`. -/
def Socker.validport (s : Socker) : Bool := s.port > 0

/-- `Socker::end()` (lines 128-137): closes the descriptor if open, else a
no-op; returns the new state and the trace of close calls.  (`end` is a
Lean keyword, hence the trailing prime.) -/
def Socker.end' (s : Socker) : Socker × List SEv :=
  if s.active then ({ s with sock := -1 }, [SEv.closeCall]) else (s, [])

/-- Body of `Socker::start()` after the initial `if (active()) end();`
(snake++srv.cpp lines 104-124): reject an invalid port before any system
call; on `socket()` failure set `sock = -1` and return `-1`; on `bind()` or
`listen()` failure call `end()` and return `-1`; on success hold the new
descriptor.  `t0` is the trace accumulated before the body. -/
def Socker.startBody (s : Socker) (os : SysCalls) (t0 : List SEv) :
    Int × Socker × List SEv :=
  if ¬ s.validport then (-1, s, t0)
  else if os.socketRes < 0 then
    (-1, { s with sock := -1 }, t0 ++ [SEv.socketCall])
  else if os.bindRes < 0 then
    (-1, ({ s with sock := os.socketRes }).end'.fst,
      t0 ++ [SEv.socketCall, SEv.bindCall] ++
        ({ s with sock := os.socketRes }).end'.snd)
  else if os.listenRes ≠ 0 then
    (-1, ({ s with sock := os.socketRes }).end'.fst,
      t0 ++ [SEv.socketCall, SEv.bindCall, SEv.listenCall] ++
        ({ s with sock := os.socketRes }).end'.snd)
  else
    (os.socketRes, { s with sock := os.socketRes },
      t0 ++ [SEv.socketCall, SEv.bindCall, SEv.listenCall])

/-- `Socker::start()` (snake++srv.cpp lines 100-125): first
`if (active()) end();`, then the body.  Returns the `int` result, the new
object state and the event trace. -/
def Socker.start (s : Socker) (os : SysCalls) : Int × Socker × List SEv :=
  if s.active then Socker.startBody s.end'.fst os s.end'.snd
  else Socker.startBody s os []

end Cpp

namespace Csrc

/-- Trace of `socker(SOCKACT_END)` (snakesrv.c lines 82-87) when the static
`sock` currently holds `sock`: a close happens iff `sock != -1`. -/
def sockerEndTrace (sock : Int) : List SEv :=
  if sock ≠ -1 then [SEv.closeCall] else []

/-- `socker(SOCKACT_START, port)` (snakesrv.c lines 55-80) with the static
`sock` currently holding `sock`.  Faithful points: the conditional
`socker(SOCKACT_END)` runs before the port check; the port check is
`if (port < 0) return -1;` (so port 0 passes); `socket()` failure stores and
returns `-1`; `bind()`/`listen()` failure runs `socker(SOCKACT_END)` and
returns `-1`; on success the new descriptor is stored and returned.
Returns (return value, new static `sock`, event trace). -/
def socker_start (sock port : Int) (os : SysCalls) : Int × Int × List SEv :=
  if port < 0 then
    (-1, if sock ≠ -1 then -1 else sock, sockerEndTrace sock)
  else if os.socketRes < 0 then
    (-1, -1, sockerEndTrace sock ++ [SEv.socketCall])
  else if os.bindRes < 0 then
    (-1, -1, sockerEndTrace sock ++ [SEv.socketCall, SEv.bindCall, SEv.closeCall])
  else if os.listenRes ≠ 0 then
    (-1, -1,
      sockerEndTrace sock ++
        [SEv.socketCall, SEv.bindCall, SEv.listenCall, SEv.closeCall])
  else
    (os.socketRes, os.socketRes,
      sockerEndTrace sock ++ [SEv.socketCall, SEv.bindCall, SEv.listenCall])

end Csrc

/-- The result `fork()` reports to the calling context for one accept-loop
iteration: failure (`-1`), this context is the child (`0`), or this context
is the parent (a positive pid). -/
inductive ForkRes
  | fail
  | child
  | parent
deriving DecidableEq, Repr

/-- OS results for one iteration of the `clients()` loop: the `accept()`
result, the `fork()` result as seen by this context, and the oracles for the
session run in the parent branch. -/
structure AcceptEv where
  clisock : Int
  frk : ForkRes
  fcntlOk : Bool
  cycles : List Cycle
deriving DecidableEq, Repr

/-- Externally visible events of one `clients()` run. -/
inductive CEv
  | acceptCall
  | forkCall
  | closeCli
  | sessionDone (r : Int)
deriving DecidableEq, Repr

/-- The `for (;;)` loop of `clients()` (snakesrv.c lines 181-205,
snake++srv.cpp lines 230-259), one `AcceptEv` per iteration.  Faithful
points: a negative `accept()` result returns `EXIT_ERR`; a `fork()` failure
closes the client socket and returns `EXIT_ERR`; the child branch closes its
copy of the client socket and continues the loop; the parent branch runs
`session()` synchronously and returns its result if it is not `EXIT_OK`,
otherwise continues the loop.  An exhausted event list models blocking
forever in `accept()` (result `none`); a session that never returns also
yields `none`. -/
def clientsLoop : List AcceptEv → Option Int × List CEv
  | [] => (none, [])
  | e :: rest =>
    if e.clisock < 0 then (some Exit.ERR, [CEv.acceptCall])
    else
      match e.frk with
      | ForkRes.fail => (some Exit.ERR, [CEv.acceptCall, CEv.forkCall, CEv.closeCli])
      | ForkRes.child =>
          ((clientsLoop rest).fst,
            CEv.acceptCall :: CEv.forkCall :: CEv.closeCli :: (clientsLoop rest).snd)
      | ForkRes.parent =>
          match (session e.clisock e.fcntlOk e.cycles).fst with
          | none => (none, [CEv.acceptCall, CEv.forkCall])
          | some rv =>
              if rv ≠ Exit.OK then
                (some rv, [CEv.acceptCall, CEv.forkCall, CEv.sessionDone rv])
              else
                ((clientsLoop rest).fst,
                  CEv.acceptCall :: CEv.forkCall :: CEv.sessionDone rv ::
                    (clientsLoop rest).snd)

/-- `clients(int sock)` of snakesrv.c (lines 169-208): `sock < 0` returns
`EXIT_PROG` before the loop. -/
def Csrc.clients (sock : Int) (events : List AcceptEv) : Option Int × List CEv :=
  if sock < 0 then (some Exit.PROG, []) else clientsLoop events

/-- `clients(Socker *sock)` of snake++srv.cpp (lines 218-262): a Socker that
is not `active()` returns `Exit::PROG` before the loop. -/
def Cpp.clients (s : Cpp.Socker) (events : List AcceptEv) :
    Option Int × List CEv :=
  if ¬ s.active then (some Exit.PROG, []) else clientsLoop events

/-- `main` of snakesrv.c after argument handling (lines 270-282): start the
listener from the initial static `sock = -1`; a negative result exits
`EXIT_ERR` without calling `clients()`; otherwise the exit status is the
value `clients()` returns (`return ret;`). -/
def Csrc.main (port : Int) (os : SysCalls) (events : List AcceptEv) : Option Int :=
  if (Csrc.socker_start (-1) port os).fst < 0 then some Exit.ERR
  else (Csrc.clients (Csrc.socker_start (-1) port os).fst events).fst

/-- The test `(sock = new Socker(port)) < 0` in snake++srv.cpp line 327
compares the pointer returned by `new` with zero; `new` never yields a
negative pointer (it throws on failure), so the test is constantly false. -/
def Cpp.newSockerPtrNeg : Bool := false

/-- `main` of snake++srv.cpp after argument handling (lines 326-339):
construct a `Socker` (the constructor runs `start()`); the failure test on
the pointer never fires (`newSockerPtrNeg`); then run `clients()` and —
unlike the C variant — `return Exit::OK;` regardless of the value stored in
`ret` (line 339). -/
def Cpp.main (port : Int) (os : SysCalls) (events : List AcceptEv) : Option Int :=
  if Cpp.newSockerPtrNeg then some Exit.ERR
  else
    match (Cpp.clients (Cpp.Socker.start { sock := -1, port := port } os).snd.fst
        events).fst with
    | none => none
    | some _ => some Exit.OK

/-- Scan of a `clients()` trace: every `accept()` call after the first may
only happen once the session dispatched for the previous accepted connection
has completed.  The flag records whether a new accept is currently allowed. -/
def serializedFrom : Bool → List CEv → Bool
  | _, [] => true
  | ready, CEv.acceptCall :: t => ready && serializedFrom false t
  | _, CEv.sessionDone _ :: t => serializedFrom true t
  | ready, CEv.forkCall :: t => serializedFrom ready t
  | ready, CEv.closeCli :: t => serializedFrom ready t

/-- A `clients()` trace is serialized when every accept after the first is
preceded by the completion of the previously dispatched session. -/
def serialized (t : List CEv) : Bool := serializedFrom true t

/-! ## Helper lemmas -/

/-- On every returning run of the session loop the client socket is closed
exactly once. -/
theorem sessionLoop_close_once :
    ∀ (cycles : List Cycle) (r : Int) (t : List Ev),
      sessionLoop cycles = (some r, t) → countClose t = 1 := by
  intro cycles
  induction cycles with
  | nil =>
      intro r t h
      simp [sessionLoop] at h
  | cons c rest ih =>
      intro r t h
      rw [sessionLoop] at h
      split_ifs at h with h1 h2 h3 h4
      · rw [Prod.mk.injEq] at h
        obtain ⟨ho, ht⟩ := h
        subst ht
        simp only [countClose]
        exact ih r (sessionLoop rest).snd (by rw [← ho])
      · rw [Prod.mk.injEq] at h
        obtain ⟨ho, ht⟩ := h
        subst ht
        simp [countClose]
      · rw [Prod.mk.injEq] at h
        obtain ⟨ho, ht⟩ := h
        subst ht
        simp only [countClose]
        exact ih r (sessionLoop rest).snd (by rw [← ho])
      · rw [Prod.mk.injEq] at h
        obtain ⟨ho, ht⟩ := h
        subst ht
        simp [countClose]
      · rw [Prod.mk.injEq] at h
        obtain ⟨ho, ht⟩ := h
        subst ht
        simp [countClose]

/-- The session loop either never returns or returns `EXIT_OK` or
`EXIT_ERR`. -/
theorem sessionLoop_fst (cycles : List Cycle) :
    (sessionLoop cycles).fst = none ∨ (sessionLoop cycles).fst = some Exit.OK ∨
      (sessionLoop cycles).fst = some Exit.ERR := by
  induction cycles with
  | nil => exact Or.inl rfl
  | cons c rest ih =>
      rw [sessionLoop]
      split_ifs with h1 h2 h3 h4
      · simpa using ih
      · exact Or.inr (Or.inr rfl)
      · simpa using ih
      · exact Or.inr (Or.inr rfl)
      · exact Or.inr (Or.inl rfl)

/-- `session()` either never returns or returns `EXIT_OK` or `EXIT_ERR`. -/
theorem session_fst (fd : Int) (fok : Bool) (cycles : List Cycle) :
    (session fd fok cycles).fst = none ∨
      (session fd fok cycles).fst = some Exit.OK ∨
      (session fd fok cycles).fst = some Exit.ERR := by
  rw [session]
  split_ifs with h1 h2 <;>
    first
      | exact Or.inr (Or.inr rfl)
      | exact sessionLoop_fst cycles

/-- The accept loop either never returns or returns `EXIT_ERR`. -/
theorem clientsLoop_fst (events : List AcceptEv) :
    (clientsLoop events).fst = none ∨ (clientsLoop events).fst = some Exit.ERR := by
  induction events with
  | nil => exact Or.inl rfl
  | cons e rest ih =>
      obtain ⟨cs, frk, fok, cys⟩ := e
      rw [clientsLoop]
      split_ifs with h1
      · exact Or.inr rfl
      · cases frk with
        | fail => exact Or.inr rfl
        | child => simpa using ih
        | parent =>
            rcases hs : (session cs fok cys).fst with _ | rv
            · simp [hs]
            · by_cases h2 : rv = Exit.OK
              · subst h2
                simp only [hs]
                simpa [Exit.OK] using ih
              · have hERR : rv = Exit.ERR := by
                  rcases session_fst cs fok cys with h | h | h
                  · rw [hs] at h
                    cases h
                  · rw [hs] at h
                    exact absurd (Option.some.inj h) h2
                  · rw [hs] at h
                    exact Option.some.inj h
                subst hERR
                simp [hs, Exit.ERR, Exit.OK]

/-- Every readiness cycle of the session loop writes the payload before
attempting the read. -/
theorem sessionLoop_wpr (cycles : List Cycle) :
    writePrecedesRead (sessionLoop cycles).snd = true := by
  induction cycles with
  | nil => rfl
  | cons c rest ih =>
      rw [sessionLoop]
      split_ifs with h1 h2 h3 h4
      · simpa [writePrecedesRead] using ih
      · simp [writePrecedesRead]
      · simpa [writePrecedesRead] using ih
      · simp [writePrecedesRead]
      · simp [writePrecedesRead]

/-- In a run of the accept loop in which this context is always the parent
(fork never fails and never marks it as the child), accepts are serialized
behind session completion. -/
theorem clientsLoop_serialized :
    ∀ events : List AcceptEv, (∀ e ∈ events, e.frk = ForkRes.parent) →
      serialized (clientsLoop events).snd = true := by
  intro events
  induction events with
  | nil => intro _; rfl
  | cons e rest ih =>
      intro h
      obtain ⟨cs, frk, fok, cys⟩ := e
      have hfrk : frk = ForkRes.parent := h _ (List.mem_cons_self _ _)
      subst hfrk
      have hrest : ∀ e ∈ rest, e.frk = ForkRes.parent :=
        fun e he => h e (List.mem_cons_of_mem _ he)
      rw [clientsLoop]
      split_ifs with h1
      · rfl
      · rcases hs : (session cs fok cys).fst with _ | rv
        · simp [hs, serialized, serializedFrom]
        · by_cases h2 : rv = Exit.OK
          · subst h2
            simp only [hs]
            simpa [Exit.OK, serialized, serializedFrom] using ih hrest
          · simp [hs, h2, serialized, serializedFrom]

/-- Changing the descriptor does not change port validity. -/
theorem Socker_validport_setSock (s : Cpp.Socker) (v : Int) :
    ({ s with sock := v } : Cpp.Socker).validport = s.validport := rfl

/-- A Socker holding a nonnegative descriptor is active. -/
theorem Socker_active_of_nonneg (s : Cpp.Socker) (h : 0 ≤ s.sock) :
    s.active = true := by
  simp only [Cpp.Socker.active, decide_eq_true_eq]
  omega

/-- An inactive Socker holds a negative descriptor. -/
theorem Socker_sock_neg_of_inactive (s : Cpp.Socker) (h : ¬ s.active = true) :
    s.sock < 0 := by
  simp only [Cpp.Socker.active, decide_eq_true_eq] at h
  omega

/-- `Socker::start` unfolded past the initial `if (active()) end();`. -/
theorem Socker_start_cases (s : Cpp.Socker) (os : SysCalls) :
    Cpp.Socker.start s os =
      if s.active then
        Cpp.Socker.startBody { s with sock := -1 } os [SEv.closeCall]
      else Cpp.Socker.startBody s os [] := by
  rw [Cpp.Socker.start]
  by_cases ha : s.active = true
  · rw [if_pos ha, if_pos ha, Cpp.Socker.end', if_pos ha]
  · rw [if_neg ha, if_neg ha]

/-- With an invalid port the start body fails before any system call. -/
theorem Socker_startBody_invalid (s : Cpp.Socker) (os : SysCalls)
    (t0 : List SEv) (h : s.validport = false) :
    Cpp.Socker.startBody s os t0 = (-1, s, t0) := by
  rw [Cpp.Socker.startBody, if_pos (by simp [h])]

/-- If `socket`, `bind` or `listen` fails, the start body returns `-1` with
the descriptor cleared. -/
theorem Socker_startBody_fail (s : Cpp.Socker) (os : SysCalls) (t0 : List SEv)
    (hv : s.validport = true)
    (hfail : os.socketRes < 0 ∨ os.bindRes < 0 ∨ os.listenRes ≠ 0) :
    (Cpp.Socker.startBody s os t0).fst = -1 ∧
    (Cpp.Socker.startBody s os t0).snd.fst.sock = -1 := by
  rw [Cpp.Socker.startBody, if_neg (by simp [hv])]
  by_cases h1 : os.socketRes < 0
  · rw [if_pos h1]
    exact ⟨rfl, rfl⟩
  · rw [if_neg h1]
    have hact : ({ s with sock := os.socketRes } : Cpp.Socker).active = true :=
      Socker_active_of_nonneg _ (by simp; omega)
    by_cases h2 : os.bindRes < 0
    · rw [if_pos h2, Cpp.Socker.end', if_pos hact]
      exact ⟨rfl, rfl⟩
    · have h3 : os.listenRes ≠ 0 := by
        rcases hfail with h | h | h
        · exact absurd h h1
        · exact absurd h h2
        · exact h
      rw [if_neg h2, if_pos h3, Cpp.Socker.end', if_pos hact]
      exact ⟨rfl, rfl⟩

/-! ## Claim theorems -/

/-- C1: a session read error does make `session()` report `EXIT_ERR` and
makes `clients()` exit with that non-Ok outcome, and the C variant's `main`
then exits with code 2; but the C++ variant's `main` (snake++srv.cpp line
339) discards `ret` and returns `Exit::OK`, so the process exits 0, not 2.
Evaluated at the failing input: listener setup succeeds, one client is
accepted, `select()` reports ready, `read()` returns `-1`. -/
theorem c1_session_error_exit_codes :
    (session 7 true [⟨1, -1⟩]).fst = some Exit.ERR ∧
    (Csrc.clients 3 [⟨7, ForkRes.parent, true, [⟨1, -1⟩]⟩]).fst = some Exit.ERR ∧
    Csrc.main 8888 ⟨3, 0, 0⟩ [⟨7, ForkRes.parent, true, [⟨1, -1⟩]⟩] = some 2 ∧
    Cpp.main 8888 ⟨3, 0, 0⟩ [⟨7, ForkRes.parent, true, [⟨1, -1⟩]⟩] = some Exit.OK ∧
    Exit.ERR = 2 ∧ Exit.OK = 0 := by decide

/-- C2: on a `bind()` failure the C variant's `main` detects the `-1` from
`socker()` and exits with code 2 without calling `clients()`; but the C++
variant's test `(sock = new Socker(port)) < 0` (line 327) compares a pointer
and is constantly false, so after a failed `Socker::start()` the C++ `main`
still calls `clients()`, which returns `Exit::PROG`, and the process exits
`Exit::OK` (0), not 2. -/
theorem c2_setup_failure_exit_codes :
    (Csrc.socker_start (-1) 8888 ⟨3, -1, 0⟩).fst = -1 ∧
    Csrc.main 8888 ⟨3, -1, 0⟩ [] = some Exit.ERR ∧
    (Cpp.Socker.start { sock := -1, port := 8888 } ⟨3, -1, 0⟩).snd.fst.sock = -1 ∧
    (Cpp.clients (Cpp.Socker.start { sock := -1, port := 8888 } ⟨3, -1, 0⟩).snd.fst
        []).fst = some Exit.PROG ∧
    Cpp.main 8888 ⟨3, -1, 0⟩ [] = some Exit.OK ∧
    Cpp.newSockerPtrNeg = false ∧ Exit.ERR = 2 := by decide

/-- C3: when `read()` fills the whole 1024-byte buffer the terminator store
`message[reads] = 0` goes to index 1024, one past the end of the buffer:
1024 is a positive read count allowed by `read(clisock, message, 1024)`, the
session loop performs the store at that index, and index 1024 is not a valid
index of the buffer. -/
theorem c3_terminator_store_out_of_bounds :
    0 < (1024 : Int) ∧ (1024 : Int) ≤ msgBufSize ∧
    Ev.termStore 1024 ∈ (session 7 true [⟨1, 1024⟩]).snd ∧
    ¬ termIndexInBounds 1024 := by decide

/-- C4: on every returning run of `session()` entered with a valid
connection handle (normal timeout end, fcntl failure, read error — and
vacuously the unreachable multiplexer-error branch) the client descriptor is
closed exactly once before returning; with an invalid handle `session()`
returns `EXIT_ERR` with an empty trace, never touching the descriptor. -/
theorem c4_connection_closed_exactly_once :
    (∀ (fd : Int) (fok : Bool) (cycles : List Cycle) (r : Int) (t : List Ev),
        0 ≤ fd → session fd fok cycles = (some r, t) → countClose t = 1) ∧
    (∀ (fd : Int) (fok : Bool) (cycles : List Cycle),
        fd < 0 → session fd fok cycles = (some Exit.ERR, [])) := by
  constructor
  · intro fd fok cycles r t hfd h
    rw [session, if_neg (by omega)] at h
    cases fok with
    | true =>
        rw [if_neg (by simp)] at h
        exact sessionLoop_close_once cycles r t h
    | false =>
        rw [if_pos (by simp)] at h
        rw [Prod.mk.injEq] at h
        obtain ⟨ho, ht⟩ := h
        subst ht
        simp [countClose]
  · intro fd fok cycles hfd
    rw [session, if_pos hfd]

/-- C4 witness: a concrete timeout-ending session closes once, and a
concrete invalid-handle call returns `EXIT_ERR` untouched. -/
theorem c4_connection_closed_exactly_once_witness :
    countClose [Ev.selectCall, Ev.closeFd] = 1 ∧
    session (-1) true [] = (some Exit.ERR, []) :=
  ⟨c4_connection_closed_exactly_once.1 3 true [⟨0, 0⟩] Exit.OK
      [Ev.selectCall, Ev.closeFd] (by decide) (by decide),
    c4_connection_closed_exactly_once.2 (-1) true [] (by decide)⟩

/-- C5 counterexample: a client that sends no data, at the concrete input
where the readiness wait reports no further event in the first cycle: the
session does end with outcome `EXIT_OK`, but the fixed response payload is
never written — the client does not receive it, refuting the claim as
stated. -/
theorem c5_no_data_client_counterexample :
    (session 4 true [⟨0, 0⟩]).fst = some Exit.OK ∧
    Ev.writePayload ∉ (session 4 true [⟨0, 0⟩]).snd := by decide

/-- C5 amended: a client that connects and sends no data ends the session
normally with outcome `EXIT_OK` once the readiness wait reports no further
event, but it does not receive the fixed response payload in that cycle —
the payload is written only in cycles where the wait reports an event. -/
theorem c5_no_event_ends_ok_without_payload (fd r : Int) (rest : List Cycle)
    (h : 0 ≤ fd) :
    (session fd true (⟨0, r⟩ :: rest)).fst = some Exit.OK ∧
    Ev.writePayload ∉ (session fd true (⟨0, r⟩ :: rest)).snd := by
  have hfd : ¬ fd < 0 := by omega
  constructor <;> simp [session, sessionLoop, hfd]

/-- C5 witness: the amended statement at a concrete input. -/
theorem c5_no_event_ends_ok_without_payload_witness :
    (session 6 true [⟨0, 1⟩]).fst = some Exit.OK ∧
    Ev.writePayload ∉ (session 6 true [⟨0, 1⟩]).snd :=
  c5_no_event_ends_ok_without_payload 6 1 [] (by decide)

/-- C6: in every readiness cycle of the session loop the fixed payload is
written before the read is attempted — every read event in a session trace
is immediately preceded by the payload write, and whenever `select()`
reports a nonzero result the cycle begins select/write/read regardless of
the read result. -/
theorem c6_write_precedes_read :
    (∀ cycles : List Cycle, writePrecedesRead (sessionLoop cycles).snd = true) ∧
    (∀ (c : Cycle) (rest : List Cycle), c.selret ≠ 0 →
      (sessionLoop (c :: rest)).snd.take 3 =
        [Ev.selectCall, Ev.writePayload, Ev.readCall c.readret]) := by
  constructor
  · exact sessionLoop_wpr
  · intro c rest h1
    rw [sessionLoop, if_pos h1]
    split_ifs with h2 h3 <;> rfl

/-- C6 witness: the statement at a concrete readiness cycle. -/
theorem c6_write_precedes_read_witness :
    writePrecedesRead (sessionLoop [⟨1, 5⟩]).snd = true ∧
    (sessionLoop [⟨1, 5⟩]).snd.take 3 =
      [Ev.selectCall, Ev.writePayload, Ev.readCall 5] :=
  ⟨c6_write_precedes_read.1 [⟨1, 5⟩],
    c6_write_precedes_read.2 ⟨1, 5⟩ [] (by decide)⟩

/-- C7 counterexample: port 0 satisfies `port ≤ 0`, yet the C variant's
`socker(SOCKACT_START, 0)` (its check is `port < 0`) proceeds to socket
creation and, with succeeding system calls, returns a valid listener rather
than failing. -/
theorem c7_port_zero_counterexample :
    (0 : Int) ≤ 0 ∧
    Csrc.socker_start (-1) 0 ⟨3, 0, 0⟩ =
      (3, 3, [SEv.socketCall, SEv.bindCall, SEv.listenCall]) ∧
    SEv.socketCall ∈ (Csrc.socker_start (-1) 0 ⟨3, 0, 0⟩).snd.snd := by decide

/-- C7 amended: the C++ `Socker::start` fails (returns `-1`, listener left
closed) without attempting socket creation for every port `≤ 0`; the C
variant's `socker` start does so only for ports `< 0` — port 0 passes its
check and socket creation is attempted. -/
theorem c7_invalid_port_rejected :
    (∀ (s : Cpp.Socker) (os : SysCalls), s.port ≤ 0 →
        (Cpp.Socker.start s os).fst = -1 ∧
        (Cpp.Socker.start s os).snd.fst.sock < 0 ∧
        SEv.socketCall ∉ (Cpp.Socker.start s os).snd.snd) ∧
    (∀ (sock port : Int) (os : SysCalls), port < 0 →
        (Csrc.socker_start sock port os).fst = -1 ∧
        (Csrc.socker_start sock port os).snd.fst = -1 ∧
        SEv.socketCall ∉ (Csrc.socker_start sock port os).snd.snd) := by
  constructor
  · intro s os h
    have hvp : s.validport = false := by
      simp only [Cpp.Socker.validport, decide_eq_false_iff_not]
      omega
    rw [Socker_start_cases]
    by_cases ha : s.active = true
    · rw [if_pos ha, Socker_startBody_invalid _ _ _ (by rw [Socker_validport_setSock, hvp])]
      refine ⟨rfl, by norm_num, by simp⟩
    · rw [if_neg ha, Socker_startBody_invalid _ _ _ hvp]
      exact ⟨rfl, Socker_sock_neg_of_inactive s ha, by simp⟩
  · intro sock port os h
    have hp : port < 0 := h
    refine ⟨?_, ?_, ?_⟩ <;>
      by_cases hs : sock = -1 <;>
        simp [Csrc.socker_start, Csrc.sockerEndTrace, hs, hp]

/-- C7 witness: the amended statement at concrete inputs (C++ at port 0,
C at port -5). -/
theorem c7_invalid_port_rejected_witness :
    ((Cpp.Socker.start { sock := -1, port := 0 } ⟨3, 0, 0⟩).fst = -1 ∧
      (Cpp.Socker.start { sock := -1, port := 0 } ⟨3, 0, 0⟩).snd.fst.sock < 0 ∧
      SEv.socketCall ∉ (Cpp.Socker.start { sock := -1, port := 0 } ⟨3, 0, 0⟩).snd.snd) ∧
    ((Csrc.socker_start (-1) (-5) ⟨3, 0, 0⟩).fst = -1 ∧
      (Csrc.socker_start (-1) (-5) ⟨3, 0, 0⟩).snd.fst = -1 ∧
      SEv.socketCall ∉ (Csrc.socker_start (-1) (-5) ⟨3, 0, 0⟩).snd.snd) :=
  ⟨c7_invalid_port_rejected.1 { sock := -1, port := 0 } ⟨3, 0, 0⟩ (by decide),
    c7_invalid_port_rejected.2 (-1) (-5) ⟨3, 0, 0⟩ (by decide)⟩

/-- C8: in both variants, if the `socket()`, `bind()` or `listen()` call
fails during listener start (with a valid port, so the calls are reached),
the start returns `-1` and the listener state is left fully closed
(descriptor `-1`): no partial state is retained. -/
theorem c8_failed_start_leaves_listener_closed :
    (∀ (s : Cpp.Socker) (os : SysCalls), s.validport = true →
        (os.socketRes < 0 ∨ os.bindRes < 0 ∨ os.listenRes ≠ 0) →
        (Cpp.Socker.start s os).fst = -1 ∧
        (Cpp.Socker.start s os).snd.fst.sock = -1) ∧
    (∀ (sock port : Int) (os : SysCalls), 0 ≤ port →
        (os.socketRes < 0 ∨ os.bindRes < 0 ∨ os.listenRes ≠ 0) →
        (Csrc.socker_start sock port os).fst = -1 ∧
        (Csrc.socker_start sock port os).snd.fst = -1) := by
  constructor
  · intro s os hvp hfail
    rw [Socker_start_cases]
    by_cases ha : s.active = true
    · rw [if_pos ha]
      exact Socker_startBody_fail _ _ _ (by rw [Socker_validport_setSock, hvp]) hfail
    · rw [if_neg ha]
      exact Socker_startBody_fail _ _ _ hvp hfail
  · intro sock port os hport hfail
    have hp : ¬ port < 0 := by omega
    by_cases h1 : os.socketRes < 0
    · refine ⟨?_, ?_⟩ <;> simp [Csrc.socker_start, hp, h1]
    · by_cases h2 : os.bindRes < 0
      · refine ⟨?_, ?_⟩ <;> simp [Csrc.socker_start, hp, h1, h2]
      · have h3 : os.listenRes ≠ 0 := by
          rcases hfail with h | h | h
          · exact absurd h h1
          · exact absurd h h2
          · exact h
        refine ⟨?_, ?_⟩ <;> simp [Csrc.socker_start, hp, h1, h2, h3]

/-- C8 witness: the statement at concrete inputs where `socket()` fails. -/
theorem c8_failed_start_leaves_listener_closed_witness :
    ((Cpp.Socker.start { sock := -1, port := 80 } ⟨-1, 0, 0⟩).fst = -1 ∧
      (Cpp.Socker.start { sock := -1, port := 80 } ⟨-1, 0, 0⟩).snd.fst.sock = -1) ∧
    ((Csrc.socker_start (-1) 80 ⟨-1, 0, 0⟩).fst = -1 ∧
      (Csrc.socker_start (-1) 80 ⟨-1, 0, 0⟩).snd.fst = -1) :=
  ⟨c8_failed_start_leaves_listener_closed.1 { sock := -1, port := 80 } ⟨-1, 0, 0⟩
      (by decide) (Or.inl (by decide)),
    c8_failed_start_leaves_listener_closed.2 (-1) 80 ⟨-1, 0, 0⟩ (by decide)
      (Or.inl (by decide))⟩

/-- C9: in the dispatching (parent) context — every `fork()` of the run
returning a positive pid to it — the accept loop runs the dispatched session
to completion before the next `accept()` call: its trace is serialized, so
connections are handled one at a time with respect to accept-loop progress.
Isolation is structural in the model: each session receives only its own
connection's data. -/
theorem c9_parent_waits_for_session (events : List AcceptEv)
    (h : ∀ e ∈ events, e.frk = ForkRes.parent) :
    serialized (clientsLoop events).snd = true :=
  clientsLoop_serialized events h

/-- C9 witness: a concrete two-client parent-context run is serialized. -/
theorem c9_parent_waits_for_session_witness :
    serialized (clientsLoop [⟨7, ForkRes.parent, true, [⟨0, 0⟩]⟩,
      ⟨8, ForkRes.parent, true, [⟨0, 0⟩]⟩]).snd = true :=
  c9_parent_waits_for_session _ (by decide)

/-- C10: `clients()` never returns `EXIT_OK` in either variant: every run
either never returns (blocked in `accept()` or in a session) or returns
`EXIT_ERR` (accept failure, fork failure, or a propagated session failure)
or `EXIT_PROG` (listener not open); the trailing `return EXIT_OK` after the
unbounded loop is unreachable. -/
theorem c10_clients_never_returns_ok :
    ∀ (sock : Int) (s : Cpp.Socker) (events : List AcceptEv),
      (Csrc.clients sock events).fst ≠ some Exit.OK ∧
      (Cpp.clients s events).fst ≠ some Exit.OK ∧
      ((Csrc.clients sock events).fst = none ∨
        (Csrc.clients sock events).fst = some Exit.ERR ∨
        (Csrc.clients sock events).fst = some Exit.PROG) ∧
      ((Cpp.clients s events).fst = none ∨
        (Cpp.clients s events).fst = some Exit.ERR ∨
        (Cpp.clients s events).fst = some Exit.PROG) := by
  intro sock s events
  have hC : (Csrc.clients sock events).fst = none ∨
      (Csrc.clients sock events).fst = some Exit.ERR ∨
      (Csrc.clients sock events).fst = some Exit.PROG := by
    rw [Csrc.clients]
    by_cases h1 : sock < 0
    · rw [if_pos h1]
      exact Or.inr (Or.inr rfl)
    · rw [if_neg h1]
      rcases clientsLoop_fst events with h | h
      · exact Or.inl h
      · exact Or.inr (Or.inl h)
  have hCpp : (Cpp.clients s events).fst = none ∨
      (Cpp.clients s events).fst = some Exit.ERR ∨
      (Cpp.clients s events).fst = some Exit.PROG := by
    rw [Cpp.clients]
    by_cases h1 : s.active = true
    · rw [if_neg (by simp [h1])]
      rcases clientsLoop_fst events with h | h
      · exact Or.inl h
      · exact Or.inr (Or.inl h)
    · rw [if_pos (by simp [h1])]
      exact Or.inr (Or.inr rfl)
  refine ⟨?_, ?_, hC, hCpp⟩
  · rcases hC with h | h | h <;> rw [h] <;> simp [Exit.OK, Exit.ERR, Exit.PROG]
  · rcases hCpp with h | h | h <;> rw [h] <;> simp [Exit.OK, Exit.ERR, Exit.PROG]

end SnakeSrv
